import Mathlib

/-!
# Verification of the SmartAgriAI scoring models

Shallow embedding, over `ℚ`, of the rule-based scoring models of the
SmartAgriAI repository (`SmartAgriProject/models/`): the soil-quality
scorer, the irrigation assessor, the yield estimator, the price
forecaster and the crop-rotation advisor.  Python's `round(x, n)`
(round half to even) is modelled exactly by `roundTo`; Python dict
lookups that may miss are modelled with `Option`; `dict.get(k, d)`
becomes `Option.getD`.  The random draws (`random.uniform`) are passed
in as explicit parameters bounded by the interval the source draws
from.
-/

namespace SmartAgri

/-- Python's `round` to an integer: round half to even (banker's rounding). -/
def roundHalfEven (x : ℚ) : ℤ :=
  if x - ⌊x⌋ < 1/2 then ⌊x⌋
  else if 1/2 < x - ⌊x⌋ then ⌊x⌋ + 1
  else if ⌊x⌋ % 2 = 0 then ⌊x⌋ else ⌊x⌋ + 1

/-- Python's `round(x, d)` for `d` decimal digits. -/
def roundTo (d : ℕ) (x : ℚ) : ℚ := (roundHalfEven (x * 10 ^ d) : ℚ) / 10 ^ d

/-! ## Soil Scorer (`models/soil_quality.py`, class `SoilQualityModel`) -/

/-- `optimal_values['ph']`. -/
def soil_optimal_ph : ℚ := 6.5

/-- `optimal_values['nitrogen']` (mg/kg). -/
def soil_optimal_nitrogen : ℚ := 50

/-- `optimal_values['phosphorus']` (mg/kg). -/
def soil_optimal_phosphorus : ℚ := 40

/-- `optimal_values['potassium']` (mg/kg). -/
def soil_optimal_potassium : ℚ := 300

/-- `optimal_values['organic_matter']` (percent). -/
def soil_optimal_organic_matter : ℚ := 5

/-- `weights['ph']`. -/
def soil_weight_ph : ℚ := 0.20

/-- `weights['nitrogen']`. -/
def soil_weight_nitrogen : ℚ := 0.25

/-- `weights['phosphorus']`. -/
def soil_weight_phosphorus : ℚ := 0.25

/-- `weights['potassium']`. -/
def soil_weight_potassium : ℚ := 0.20

/-- `weights['organic_matter']`. -/
def soil_weight_organic_matter : ℚ := 0.10

/-- Result record of `calculate_soil_quality_score` (numeric fields carry the
`round(..., 2)` the source applies on output). -/
structure SoilResult where
  overall_score : ℚ
  ph_score : ℚ
  nitrogen_score : ℚ
  phosphorus_score : ℚ
  potassium_score : ℚ
  organic_matter_score : ℚ
  grade : String
  recommendations : List String
  deriving Repr, DecidableEq

/-- `SoilQualityModel._get_grade`. -/
def soil_grade (score : ℚ) : String :=
  if 8.5 ≤ score then "Excellent"
  else if 7.0 ≤ score then "Good"
  else if 5.5 ≤ score then "Fair"
  else if 4.0 ≤ score then "Poor"
  else "Very Poor"

/-- `SoilQualityModel._generate_recommendations`. -/
def soil_recommendations (ph nitrogen phosphorus potassium organic_matter : ℚ) :
    List String :=
  let recs : List String :=
    (if ph < 6.0 then ["Add lime to increase soil pH (acidic soil)"]
     else if 7.5 < ph then
       ["Add sulfur or organic matter to decrease pH (alkaline soil)"]
     else []) ++
    (if nitrogen < 30 then
       ["Apply nitrogen-rich fertilizer (urea, ammonium sulfate)"]
     else if 80 < nitrogen then
       ["Reduce nitrogen fertilizer to prevent nutrient burn"]
     else []) ++
    (if phosphorus < 25 then ["Add phosphorus fertilizer (DAP, SSP)"] else []) ++
    (if potassium < 200 then ["Apply potassium fertilizer (muriate of potash)"]
     else []) ++
    (if organic_matter < 3 then
       ["Increase organic matter with compost, manure, or cover crops"]
     else [])
  if recs = [] then ["Soil quality is optimal - maintain current practices"]
  else recs

/-- `SoilQualityModel.calculate_soil_quality_score`.  The grade is computed
from the unrounded overall score, exactly as in the source. -/
def calculate_soil_quality_score
    (ph nitrogen phosphorus potassium organic_matter : ℚ) : SoilResult :=
  let ph_score := max 0 (10 * (1 - |soil_optimal_ph - ph| / 3.5))
  let nitrogen_score := min (nitrogen / soil_optimal_nitrogen * 10) 10
  let phosphorus_score := min (phosphorus / soil_optimal_phosphorus * 10) 10
  let potassium_score := min (potassium / soil_optimal_potassium * 10) 10
  let organic_matter_score :=
    min (organic_matter / soil_optimal_organic_matter * 10) 10
  let overall_score :=
    ph_score * soil_weight_ph +
    nitrogen_score * soil_weight_nitrogen +
    phosphorus_score * soil_weight_phosphorus +
    potassium_score * soil_weight_potassium +
    organic_matter_score * soil_weight_organic_matter
  { overall_score := roundTo 2 overall_score
    ph_score := roundTo 2 ph_score
    nitrogen_score := roundTo 2 nitrogen_score
    phosphorus_score := roundTo 2 phosphorus_score
    potassium_score := roundTo 2 potassium_score
    organic_matter_score := roundTo 2 organic_matter_score
    grade := soil_grade overall_score
    recommendations :=
      soil_recommendations ph nitrogen phosphorus potassium organic_matter }

/-! ## Irrigation Assessor (`models/irrigation_model.py`, class `IrrigationModel`) -/

/-- `crop_water_requirements` (mm/day during peak growth); Python dicts are
modelled as association lists in source order with `find?` lookup. -/
def crop_water_requirements_table : List (String × ℚ) :=
  [("wheat", 4.5), ("rice", 8.0), ("corn", 6.0), ("barley", 4.0),
   ("millet", 3.5), ("soybean", 5.5), ("chickpea", 3.0), ("lentil", 2.5),
   ("groundnut", 4.5), ("potato", 5.0), ("tomato", 6.5), ("onion", 4.0),
   ("cabbage", 5.5), ("cotton", 7.0), ("sugarcane", 8.5), ("mustard", 3.5),
   ("sunflower", 5.0)]

/-- Lookup in `crop_water_requirements`. -/
def crop_water_requirements (crop : String) : Option ℚ :=
  (crop_water_requirements_table.find? (fun kv => kv.1 == crop)).map
    (fun kv => kv.2)

/-- `growth_stage_multipliers`. -/
def growth_stage_multipliers (stage : String) : Option ℚ :=
  if stage = "germination" then some 0.3 else if stage = "vegetative" then some 0.7
  else if stage = "flowering" then some 1.2
  else if stage = "grain_filling" then some 1.0
  else if stage = "maturity" then some 0.4 else none

/-- `soil_water_capacity` (mm/cm depth). -/
def soil_water_capacity (soil_type : String) : Option ℚ :=
  if soil_type = "sandy" then some 1.0 else if soil_type = "loamy" then some 1.5
  else if soil_type = "clay" then some 2.0
  else if soil_type = "organic" then some 2.5 else none

/-- `irrigation_efficiency` by method. -/
def irrigation_efficiency (method : String) : Option ℚ :=
  if method = "flood" then some 0.45 else if method = "furrow" then some 0.60
  else if method = "sprinkler" then some 0.75 else if method = "drip" then some 0.90
  else if method = "micro_sprinkler" then some 0.85 else none

/-- `IrrigationModel._calculate_evapotranspiration`: unknown crops fall back to
a base of 5.0 mm/day and unknown growth stages to a multiplier of 1.0
(`dict.get` defaults); the result is floored at 1 mm/day. -/
def calculate_evapotranspiration (crop : String) (temperature humidity
    wind_speed : ℚ) (growth_stage : String) : ℚ :=
  let base_et := (crop_water_requirements crop).getD 5.0
  let stage_multiplier := (growth_stage_multipliers growth_stage).getD 1.0
  let temp_factor := max 0.5 (min 1.5 (1.0 + (temperature - 25) * 0.02))
  let humidity_factor := max 0.7 (min 1.3 (1.0 - (humidity - 50) * 0.005))
  let wind_factor := max 0.8 (min 1.4 (1.0 + (wind_speed - 5) * 0.01))
  max 1.0 (base_et * stage_multiplier * temp_factor * humidity_factor * wind_factor)

/-- Result of `IrrigationModel._assess_moisture_status`. -/
structure MoistureStatus where
  status : String
  description : String
  urgency : String
  moisture_level : ℚ
  deriving Repr, DecidableEq

/-- `IrrigationModel._assess_moisture_status`: five-way classification
against the fixed thresholds 30/50/70/90, each comparison inclusive. -/
def assess_moisture_status (soil_moisture : ℚ) : MoistureStatus :=
  if soil_moisture ≤ 30 then
    { status := "Critical"
      description := "Immediate irrigation required - crops under severe stress"
      urgency := "High", moisture_level := soil_moisture }
  else if soil_moisture ≤ 50 then
    { status := "Stress"
      description := "Irrigation recommended - crops beginning to show stress"
      urgency := "Medium", moisture_level := soil_moisture }
  else if soil_moisture ≤ 70 then
    { status := "Adequate"
      description := "Soil moisture adequate - monitor conditions"
      urgency := "Low", moisture_level := soil_moisture }
  else if soil_moisture ≤ 90 then
    { status := "Optimal"
      description := "Excellent soil moisture - no irrigation needed"
      urgency := "None", moisture_level := soil_moisture }
  else
    { status := "Excess"
      description := "Risk of waterlogging - ensure proper drainage"
      urgency := "Drainage", moisture_level := soil_moisture }

/-- `IrrigationModel._calculate_water_deficit` (target moisture 70, root
zone 300 mm, unknown soil types fall back to capacity 1.5). -/
def calculate_water_deficit (soil_moisture et_rate : ℚ) (days_since_rain : ℤ)
    (soil_type : String) : ℚ :=
  let moisture_deficit := max 0 (70 - soil_moisture)
  let et_loss := et_rate * days_since_rain
  let soil_capacity := (soil_water_capacity soil_type).getD 1.5
  max 0 (moisture_deficit / 100 * soil_capacity * 300 + et_loss)

/-- Method recommendation record of `_recommend_irrigation_method`. -/
structure MethodRecommendation where
  method : String
  efficiency_percent : ℚ
  water_needed_mm : ℚ
  deriving Repr, DecidableEq

/-- `IrrigationModel._recommend_irrigation_method`.  The method table always
yields a key of `irrigation_efficiency`, which the source indexes directly;
a missing key (impossible here) is modelled as efficiency 0. -/
def recommend_irrigation_method (crop : String) (water_deficit : ℚ) :
    MethodRecommendation :=
  let recommended_method :=
    if crop = "rice" then "flood" else if crop = "sugarcane" then "furrow"
    else if crop = "tomato" then "drip" else if crop = "potato" then "sprinkler"
    else if crop = "cotton" then "drip" else if crop = "wheat" then "sprinkler"
    else if crop = "corn" then "furrow" else "sprinkler"
  let efficiency := (irrigation_efficiency recommended_method).getD 0
  let actual_water_needed :=
    if 0 < efficiency then water_deficit / efficiency else water_deficit
  { method := recommended_method
    efficiency_percent := efficiency * 100
    water_needed_mm := roundTo 1 actual_water_needed }

/-- Recommendation record of `_generate_irrigation_recommendation`. -/
structure IrrigationRecommendation where
  priority : String
  action : String
  duration_hours : ℚ
  frequency : String
  water_amount_mm : ℚ
  method_recommendation : MethodRecommendation
  deriving Repr, DecidableEq

/-- `IrrigationModel._generate_irrigation_recommendation`. -/
def generate_irrigation_recommendation (urgency : String)
    (water_deficit : ℚ) (crop : String) : IrrigationRecommendation :=
  let pad : String × String × ℚ × String :=
    if urgency = "High" then
      ("Immediate", "Start irrigation within 2-4 hours",
       max 2 (water_deficit / 10), "Daily until moisture improves")
    else if urgency = "Medium" then
      ("Soon", "Irrigate within 12-24 hours",
       max 1 (water_deficit / 15), "Every 2-3 days")
    else if urgency = "Low" then
      ("Monitor", "Continue monitoring, irrigate if conditions worsen",
       0, "As needed")
    else if urgency = "Drainage" then
      ("Drainage", "Improve drainage, avoid irrigation",
       0, "None - focus on drainage")
    else
      ("None", "No irrigation needed", 0, "Monitor daily")
  let water_amount := if 0 < water_deficit then water_deficit else 0
  { priority := pad.1
    action := pad.2.1
    duration_hours := roundTo 1 pad.2.2.1
    frequency := pad.2.2.2
    water_amount_mm := roundTo 1 water_amount
    method_recommendation := recommend_irrigation_method crop water_deficit }

/-- Top-level result of `assess_irrigation_need` (the illustrative 14-day
schedule list and the free-text efficiency tips are UI output not embedded). -/
structure IrrigationAssessment where
  moisture_status : MoistureStatus
  et_rate : ℚ
  water_deficit : ℚ
  irrigation_priority : String
  recommendation : IrrigationRecommendation
  deriving Repr, DecidableEq

/-- `IrrigationModel.assess_irrigation_need`: the composed pipeline. -/
def assess_irrigation_need (crop : String) (soil_moisture temperature
    humidity wind_speed : ℚ) (growth_stage soil_type : String)
    (days_since_rain : ℤ) : IrrigationAssessment :=
  let et_rate := calculate_evapotranspiration crop temperature humidity
    wind_speed growth_stage
  let moisture_status := assess_moisture_status soil_moisture
  let water_deficit := calculate_water_deficit soil_moisture et_rate
    days_since_rain soil_type
  let recommendation := generate_irrigation_recommendation
    moisture_status.urgency water_deficit crop
  { moisture_status := moisture_status
    et_rate := roundTo 2 et_rate
    water_deficit := roundTo 2 water_deficit
    irrigation_priority := recommendation.priority
    recommendation := recommendation }

/-! ## Price Forecaster (`models/price_prediction.py`, class
`PricePredictionModel`) -/

/-- `current_prices` (rupees/quintal). -/
def current_prices_table : List (String × ℚ) :=
  [("wheat", 2200), ("rice", 2800), ("corn", 1800), ("barley", 1900),
   ("millet", 2500), ("soybean", 4500), ("chickpea", 5500), ("lentil", 6000),
   ("groundnut", 5800), ("potato", 1200), ("tomato", 1500), ("onion", 1800),
   ("cabbage", 800), ("cotton", 5500), ("sugarcane", 350), ("mustard", 5200),
   ("sunflower", 6000)]

/-- Lookup in `current_prices`. -/
def current_prices (crop : String) : Option ℚ :=
  (current_prices_table.find? (fun kv => kv.1 == crop)).map (fun kv => kv.2)

/-- `typical_yields` (quintals/hectare). -/
def typical_yields_table : List (String × ℚ) :=
  [("wheat", 45), ("rice", 40), ("corn", 50), ("barley", 35), ("millet", 25),
   ("soybean", 20), ("chickpea", 18), ("lentil", 15), ("groundnut", 22),
   ("potato", 250), ("tomato", 300), ("onion", 200), ("cabbage", 400),
   ("cotton", 15), ("sugarcane", 800), ("mustard", 18), ("sunflower", 20)]

/-- Lookup in `typical_yields`. -/
def typical_yields (crop : String) : Option ℚ :=
  (typical_yields_table.find? (fun kv => kv.1 == crop)).map (fun kv => kv.2)

/-- `cultivation_costs` (rupees/hectare). -/
def cultivation_costs_table : List (String × ℚ) :=
  [("wheat", 35000), ("rice", 45000), ("corn", 30000), ("barley", 28000),
   ("millet", 20000), ("soybean", 32000), ("chickpea", 28000),
   ("lentil", 25000), ("groundnut", 35000), ("potato", 60000),
   ("tomato", 80000), ("onion", 50000), ("cabbage", 45000), ("cotton", 50000),
   ("sugarcane", 120000), ("mustard", 25000), ("sunflower", 30000)]

/-- Lookup in `cultivation_costs`. -/
def cultivation_costs (crop : String) : Option ℚ :=
  (cultivation_costs_table.find? (fun kv => kv.1 == crop)).map (fun kv => kv.2)

/-- `seasonal_patterns`: monthly price multipliers for the four crops listed
in the source. -/
def seasonal_patterns (crop : String) : Option (List ℚ) :=
  if crop = "wheat" then
    some [1.1, 1.1, 1.0, 0.9, 0.8, 0.8, 0.9, 1.0, 1.1, 1.2, 1.2, 1.1]
  else if crop = "rice" then
    some [0.9, 0.9, 1.0, 1.1, 1.2, 1.2, 1.1, 1.0, 0.9, 0.8, 0.8, 0.9]
  else if crop = "potato" then
    some [0.8, 0.8, 0.9, 1.0, 1.2, 1.3, 1.2, 1.1, 1.0, 0.9, 0.8, 0.8]
  else if crop = "tomato" then
    some [1.2, 1.1, 1.0, 0.9, 0.8, 0.9, 1.0, 1.1, 1.2, 1.3, 1.2, 1.2]
  else none

/-- The default flat pattern `[1.0] * 12` used by
`seasonal_patterns.get(crop, [1.0] * 12)`. -/
def default_seasonal : List ℚ := List.replicate 12 1.0

/-- The seasonal multiplier applied for a given 0-based month index. -/
def seasonal_multiplier (crop : String) (monthIdx : ℕ) : ℚ :=
  ((seasonal_patterns crop).getD default_seasonal).getD monthIdx 1.0

/-- `volatility` by crop category. -/
def volatility_table (category : String) : Option ℚ :=
  if category = "vegetables" then some 0.15
  else if category = "cereals" then some 0.08
  else if category = "pulses" then some 0.12
  else if category = "cash_crops" then some 0.10 else none

/-- `PricePredictionModel._get_crop_category` (first matching category in
the source's insertion order, default "cereals"). -/
def get_crop_category (crop : String) : String :=
  if crop = "potato" ∨ crop = "tomato" ∨ crop = "onion" ∨ crop = "cabbage" then
    "vegetables"
  else if crop = "wheat" ∨ crop = "rice" ∨ crop = "corn" ∨ crop = "barley" ∨
    crop = "millet" then "cereals"
  else if crop = "soybean" ∨ crop = "chickpea" ∨ crop = "lentil" ∨
    crop = "groundnut" then "pulses"
  else if crop = "cotton" ∨ crop = "sugarcane" ∨ crop = "mustard" ∨
    crop = "sunflower" then "cash_crops"
  else "cereals"

/-- Base trend table of `_calculate_price_trend` (default 0.05). -/
def price_trends (crop : String) : Option ℚ :=
  if crop = "wheat" then some 0.05 else if crop = "rice" then some 0.03
  else if crop = "potato" then some 0.08 else if crop = "tomato" then some 0.10
  else if crop = "cotton" then some 0.06 else if crop = "soybean" then some 0.07
  else none

/-- `PricePredictionModel._calculate_price_trend`; `market_factor` stands
for the `random.uniform(-0.03, 0.03)` draw of the source. -/
def calculate_price_trend (crop : String) (market_factor : ℚ) : ℚ :=
  (price_trends crop).getD 0.05 + market_factor

/-- One entry of the `future_predictions` list. -/
structure FuturePrediction where
  month : ℕ
  predicted_price : ℚ
  min_price : ℚ
  max_price : ℚ
  confidence : ℚ
  deriving Repr, DecidableEq

/-- The confidence assigned to month `m`: `max(0.5, 1.0 - month * 0.1)`. -/
def conf_at (m : ℕ) : ℚ := max 0.5 (1.0 - (m : ℚ) * 0.1)

/-- The loop body of `_generate_future_predictions`: `k` months remain,
`month` is the 1-based month counter, `price` the running trend price.
`calMonth` abstracts the wall-clock date arithmetic
`(base_date + 30 * month days).month - 1` of the source, yielding the
0-based calendar month used for the seasonal lookup. -/
def generate_future_aux (crop : String) (calMonth : ℕ → ℕ)
    (trend vol : ℚ) : ℕ → ℕ → ℚ → List FuturePrediction
  | 0, _, _ => []
  | k + 1, month, price =>
    let price2 := price * (1 + trend / 12)
    let seasonal_price := price2 * seasonal_multiplier crop (calMonth month)
    let uncertainty := vol * (month : ℚ) * 0.1
    { month := month
      predicted_price := roundTo 2 seasonal_price
      min_price := roundTo 2 (seasonal_price * (1 - uncertainty))
      max_price := roundTo 2 (seasonal_price * (1 + uncertainty))
      confidence := conf_at month } ::
    generate_future_aux crop calMonth trend vol k (month + 1) price2

/-- `PricePredictionModel._generate_future_predictions`. -/
def generate_future_predictions (crop : String) (current_price : ℚ)
    (months_ahead : ℕ) (trend : ℚ) (calMonth : ℕ → ℕ) :
    List FuturePrediction :=
  generate_future_aux crop calMonth trend
    ((volatility_table (get_crop_category crop)).getD 0.10)
    months_ahead 1 current_price

/-- Result record of `calculate_profitability`. -/
structure Profitability where
  expected_yield : ℚ
  selling_price_per_quintal : ℚ
  total_revenue : ℚ
  total_cost : ℚ
  net_profit : ℚ
  profit_margin_percent : ℚ
  roi_percent : ℚ
  breakeven_price : ℚ
  profitability : String
  deriving Repr, DecidableEq

/-- `PricePredictionModel.calculate_profitability`.  The source indexes
`current_prices[crop]`, `typical_yields[crop]` and `cultivation_costs[crop]`
directly — a crop absent from the tables raises `KeyError`, modelled here as
`none`. -/
def calculate_profitability (crop : String) (area_hectares : ℚ)
    (selling_month : Option ℤ) : Option Profitability := do
  let current_price ← current_prices crop
  let typical_yield ← typical_yields crop
  let cultivation_cost ← cultivation_costs crop
  let selling_price :=
    match selling_month with
    | some m =>
      if 1 ≤ m ∧ m ≤ 12 then
        current_price *
          ((seasonal_patterns crop).getD default_seasonal).getD
            (m - 1).toNat 1.0
      else current_price
    | none => current_price
  let total_production := typical_yield * area_hectares
  let total_revenue := total_production * selling_price
  let total_cost := cultivation_cost * area_hectares
  let net_profit := total_revenue - total_cost
  let profit_margin :=
    if 0 < total_revenue then net_profit / total_revenue * 100 else 0
  let roi := if 0 < total_cost then net_profit / total_cost * 100 else 0
  some
    { expected_yield := total_production
      selling_price_per_quintal := selling_price
      total_revenue := roundTo 2 total_revenue
      total_cost := roundTo 2 total_cost
      net_profit := roundTo 2 net_profit
      profit_margin_percent := roundTo 2 profit_margin
      roi_percent := roundTo 2 roi
      breakeven_price := roundTo 2 (cultivation_cost / typical_yield)
      profitability :=
        if 50 < roi then "High" else if 20 < roi then "Medium"
        else if 0 < roi then "Low" else "Loss" }

/-! ## Rotation Advisor (`models/crop_rotation.py`, class `CropRotationModel`) -/

/-- One value record of `crop_database`. -/
structure CropData where
  soil_min : ℚ
  season : String
  category : String
  nitrogen_need : String
  water_need : String
  deriving Repr, DecidableEq

/-- `crop_database`, in source insertion order. -/
def crop_database : List (String × CropData) :=
  [("wheat", ⟨6, "winter", "cereals", "medium", "medium"⟩),
   ("rice", ⟨7, "monsoon", "cereals", "high", "high"⟩),
   ("corn", ⟨6, "monsoon", "cereals", "high", "medium"⟩),
   ("barley", ⟨5, "winter", "cereals", "medium", "low"⟩),
   ("millet", ⟨4, "monsoon", "cereals", "low", "low"⟩),
   ("soybean", ⟨6, "monsoon", "legumes", "low", "medium"⟩),
   ("chickpea", ⟨6, "winter", "legumes", "low", "low"⟩),
   ("lentil", ⟨6, "winter", "legumes", "low", "low"⟩),
   ("groundnut", ⟨5, "monsoon", "legumes", "low", "medium"⟩),
   ("potato", ⟨6, "winter", "vegetables", "medium", "medium"⟩),
   ("tomato", ⟨7, "all", "vegetables", "high", "high"⟩),
   ("onion", ⟨6, "winter", "vegetables", "medium", "medium"⟩),
   ("cabbage", ⟨6, "winter", "vegetables", "medium", "medium"⟩),
   ("cotton", ⟨6, "monsoon", "cash_crops", "high", "medium"⟩),
   ("sugarcane", ⟨7, "all", "cash_crops", "high", "high"⟩),
   ("mustard", ⟨5, "winter", "oilseeds", "medium", "low"⟩),
   ("sunflower", ⟨5, "winter", "oilseeds", "medium", "medium"⟩)]

/-- `rotation_benefits` matrix. -/
def rotation_benefits (category : String) : Option (List String) :=
  if category = "cereals" then some ["legumes", "oilseeds", "vegetables"]
  else if category = "legumes" then some ["cereals", "cash_crops", "vegetables"]
  else if category = "oilseeds" then some ["cereals", "legumes", "vegetables"]
  else if category = "vegetables" then some ["cereals", "legumes", "oilseeds"]
  else if category = "cash_crops" then some ["legumes", "cereals", "oilseeds"]
  else none

/-- `seasons` mapping; `self.seasons.get(season, [season])`. -/
def seasons_map (season : String) : List String :=
  if season = "winter" then ["winter", "all"]
  else if season = "monsoon" then ["monsoon", "all"]
  else if season = "summer" then ["summer", "all"]
  else [season]

/-- `CropRotationModel._get_rotation_benefit`. -/
def get_rotation_benefit (current_category next_category : String) : String :=
  if current_category = "cereals" ∧ next_category = "legumes" then
    "Legumes fix nitrogen, reducing fertilizer needs for next cereal crop"
  else if current_category = "legumes" ∧ next_category = "cereals" then
    "Cereals utilize nitrogen fixed by previous legume crop"
  else if current_category = "cereals" ∧ next_category = "oilseeds" then
    "Different root systems improve soil structure"
  else if current_category = "vegetables" ∧ next_category = "cereals" then
    "Rotation breaks pest cycles common in vegetable crops"
  else if current_category = "cash_crops" ∧ next_category = "legumes" then
    "Legumes restore soil fertility after nutrient-intensive cash crops"
  else if current_category = "oilseeds" ∧ next_category = "cereals" then
    "Oilseeds improve soil organic matter for cereal production"
  else "Crop rotation improves soil health and breaks pest cycles"

/-- One suggestion of `suggest_crop_rotation`. -/
structure RotationSuggestion where
  crop : String
  category : String
  suitability_score : ℚ
  rotation_benefit : String
  soil_requirement : ℚ
  water_need : String
  nitrogen_need : String
  deriving Repr, DecidableEq

/-- `self.crop_database.get(current_crop, {}).get('category', 'unknown')`. -/
def current_category_of (current_crop : String) : String :=
  ((crop_database.find? (fun kv => kv.1 == current_crop)).map
    (fun kv => kv.2.category)).getD "unknown"

/-- `self.rotation_benefits.get(current_category, ['cereals', 'legumes'])`. -/
def beneficial_categories (current_category : String) : List String :=
  (rotation_benefits current_category).getD ["cereals", "legumes"]

/-- The filter-and-score loop of `suggest_crop_rotation`: keeps crops whose
season is allowed for the requested season and whose `soil_min` is within
the 2-point tolerance, then scores them. -/
def suitable_crops (current_category : String) (beneficial : List String)
    (soil_quality : ℚ) (season : String) : List RotationSuggestion :=
  (crop_database.filter (fun kv =>
      decide (kv.2.season ∈ seasons_map season ∧
        kv.2.soil_min ≤ soil_quality + 2))).map (fun kv =>
    let benefit_score : ℚ :=
      if kv.2.category ∈ beneficial then 3
      else if kv.2.category = current_category then 1
      else 2
    let soil_match := min 10 (soil_quality - kv.2.soil_min + 5)
    { crop := kv.1
      category := kv.2.category
      suitability_score := benefit_score * 2 + soil_match
      rotation_benefit := get_rotation_benefit current_category kv.2.category
      soil_requirement := kv.2.soil_min
      water_need := kv.2.water_need
      nitrogen_need := kv.2.nitrogen_need })

/-- Stable descending insertion used to model Python's stable
`sort(key=suitability_score, reverse=True)`. -/
def insert_desc (x : RotationSuggestion) :
    List RotationSuggestion → List RotationSuggestion
  | [] => [x]
  | y :: ys =>
    if y.suitability_score < x.suitability_score then x :: y :: ys
    else y :: insert_desc x ys

/-- Stable descending sort by `suitability_score`. -/
def sort_desc : List RotationSuggestion → List RotationSuggestion
  | [] => []
  | x :: xs => insert_desc x (sort_desc xs)

/-- Result of `suggest_crop_rotation` (the illustrative multi-year
`rotation_plan`, whose third crop is drawn with `random.choice`, is
nondeterministic UI output not embedded). -/
structure RotationResult where
  current_crop : String
  current_category : String
  recommendations : List RotationSuggestion
  season : String
  soil_quality : ℚ
  deriving Repr, DecidableEq

/-- `CropRotationModel.suggest_crop_rotation`. -/
def suggest_crop_rotation (current_crop : String) (soil_quality : ℚ)
    (season : String) (_area_hectares : ℚ) : RotationResult :=
  let current_category := current_category_of current_crop
  let beneficial := beneficial_categories current_category
  let suitable := suitable_crops current_category beneficial soil_quality
    season
  { current_crop := current_crop
    current_category := current_category
    recommendations := (sort_desc suitable).take 5
    season := season
    soil_quality := soil_quality }

/-! ## Yield Estimator (`models/yield_prediction.py`, class
`YieldPredictionModel`) -/

/-- `base_yields` (tons/hectare). -/
def base_yields_table : List (String × ℚ) :=
  [("wheat", 4.5), ("rice", 3.8), ("corn", 5.2), ("barley", 3.5),
   ("millet", 2.8), ("soybean", 2.5), ("chickpea", 1.8), ("lentil", 1.5),
   ("groundnut", 2.2), ("potato", 25.0), ("tomato", 30.0), ("onion", 20.0),
   ("cabbage", 40.0), ("cotton", 1.5), ("sugarcane", 80.0), ("mustard", 1.8),
   ("sunflower", 2.0)]

/-- Lookup in `base_yields`. -/
def base_yields (crop : String) : Option ℚ :=
  (base_yields_table.find? (fun kv => kv.1 == crop)).map (fun kv => kv.2)

/-- One entry of `crop_requirements`. -/
structure CropReq where
  temp_min : ℚ
  temp_max : ℚ
  rainfall_min : ℚ
  rainfall_max : ℚ
  deriving Repr, DecidableEq

/-- `crop_requirements` (only five crops are listed in the source). -/
def crop_requirements (crop : String) : Option CropReq :=
  if crop = "wheat" then some ⟨15, 25, 300, 800⟩
  else if crop = "rice" then some ⟨20, 35, 1000, 2000⟩
  else if crop = "corn" then some ⟨18, 30, 500, 1200⟩
  else if crop = "cotton" then some ⟨20, 35, 500, 1000⟩
  else if crop = "potato" then some ⟨15, 25, 400, 700⟩
  else none

/-- The fallback requirement band used by `_calculate_weather_factor` for
unlisted crops. -/
def default_crop_req : CropReq := ⟨15, 30, 400, 1000⟩

/-- `YieldPredictionModel._calculate_soil_factor`
(`optimal_conditions['soil_quality'] = 8.0`). -/
def calculate_soil_factor (soil_quality : ℚ) : ℚ :=
  if 8 ≤ soil_quality then 1.0
  else if 6 ≤ soil_quality then 0.8 + (soil_quality - 6.0) * 0.1
  else if 4 ≤ soil_quality then 0.6 + (soil_quality - 4.0) * 0.1
  else 0.4 + soil_quality * 0.05

/-- `YieldPredictionModel._calculate_weather_factor`. -/
def calculate_weather_factor (crop : String) (rainfall temperature
    humidity : ℚ) : ℚ :=
  let req := (crop_requirements crop).getD default_crop_req
  let temp_factor :=
    if req.temp_min ≤ temperature ∧ temperature ≤ req.temp_max then 1.0
    else
      max 0.3 (1.0 - min |temperature - req.temp_min|
        |temperature - req.temp_max| * 0.05)
  let rain_factor :=
    if req.rainfall_min ≤ rainfall ∧ rainfall ≤ req.rainfall_max then 1.0
    else if rainfall < req.rainfall_min then max 0.4 (rainfall / req.rainfall_min)
    else max 0.5 (1.0 - (rainfall - req.rainfall_max) / req.rainfall_max * 0.3)
  let humidity_factor :=
    if 60 ≤ humidity ∧ humidity ≤ 70 then 1.0
    else max 0.7 (1.0 - |humidity - 65| * 0.01)
  temp_factor * rain_factor * humidity_factor

/-- `YieldPredictionModel._calculate_fertilizer_factor`
(optima N 120, P 60, K 80 kg/ha). -/
def calculate_fertilizer_factor (nitrogen phosphorus potassium : ℚ) : ℚ :=
  let n_factor :=
    if nitrogen ≤ 120 then 0.7 + nitrogen / 120 * 0.3
    else max 0.8 (1.0 - (nitrogen - 120) / 120 * 0.2)
  let p_factor := min 1.0 (0.8 + phosphorus / 60 * 0.2)
  let k_factor := min 1.0 (0.9 + potassium / 80 * 0.1)
  n_factor * 0.6 + p_factor * 0.25 + k_factor * 0.15

/-- `YieldPredictionModel._calculate_confidence`. -/
def calculate_confidence (soil_factor weather_factor fertilizer_factor : ℚ) :
    String :=
  let avg_factor := (soil_factor + weather_factor + fertilizer_factor) / 3
  if 0.9 ≤ avg_factor then "High (90%+)"
  else if 0.7 ≤ avg_factor then "Medium (70-90%)"
  else "Low (<70%)"

/-- Python's `sub in s` substring test, via `String.splitOn`. -/
def containsSub (s sub : String) : Bool := (s.splitOn sub).length != 1

/-- `YieldPredictionModel._get_mitigation_strategies` (keyword matching on
the lower-cased risk strings). -/
def get_mitigation_strategies (risks : List String) : List String :=
  risks.filterMap fun risk =>
    if containsSub risk.toLower "cold stress" then
      some "Use row covers, plant after last frost date"
    else if containsSub risk.toLower "heat stress" then
      some "Provide shade, increase irrigation frequency"
    else if containsSub risk.toLower "drought" then
      some "Install drip irrigation, use mulching"
    else if containsSub risk.toLower "waterlogging" then
      some "Improve drainage, use raised beds"
    else if containsSub risk.toLower "soil quality" then
      some "Add organic matter, balance nutrients"
    else none

/-- Result of `YieldPredictionModel._assess_risks`. -/
structure RiskAssessment where
  risk_level : String
  risk_factors : List String
  mitigation_strategies : List String
  deriving Repr, DecidableEq

/-- `YieldPredictionModel._assess_risks` (sequential list/level updates of
the source made explicit; `requirements.get` defaults are 15/30/400/1000). -/
def assess_risks (crop : String) (rainfall temperature soil_quality : ℚ) :
    RiskAssessment :=
  let req := (crop_requirements crop).getD default_crop_req
  let s1 : List String × String :=
    if temperature < req.temp_min - 5 then
      (["Cold stress risk - consider frost protection"], "High")
    else if req.temp_max + 5 < temperature then
      (["Heat stress risk - ensure adequate irrigation"], "High")
    else ([], "Low")
  let s2 : List String × String :=
    if rainfall < req.rainfall_min * 0.7 then
      (s1.1 ++ ["Drought risk - plan supplemental irrigation"], "High")
    else if req.rainfall_max * 1.3 < rainfall then
      (s1.1 ++ ["Waterlogging risk - ensure proper drainage"],
       if s1.2 = "Low" then "Medium" else s1.2)
    else s1
  let s3 : List String × String :=
    if soil_quality < 5.0 then
      (s2.1 ++ ["Poor soil quality - consider soil improvement"],
       if s2.2 = "Low" then "Medium" else s2.2)
    else s2
  let risks :=
    if s3.1 = [] then ["Favorable conditions - low production risk"] else s3.1
  { risk_level := s3.2
    risk_factors := risks
    mitigation_strategies := get_mitigation_strategies risks }

/-- The normal (non-error) record returned by `predict_yield`.  The
`optimization_suggestions` string list (which renders a number through
Python string formatting) is UI output not embedded. -/
structure YieldPrediction where
  crop : String
  predicted_yield_per_hectare : ℚ
  total_production : ℚ
  area_hectares : ℚ
  soil_factor : ℚ
  weather_factor : ℚ
  fertilizer_factor : ℚ
  risk_assessment : RiskAssessment
  confidence_level : String
  deriving Repr, DecidableEq

/-- `predict_yield` returns either the explicit error record
`{'error': ...}` or a normal prediction record. -/
inductive YieldResult where
  | error (msg : String)
  | ok (p : YieldPrediction)
  deriving Repr, DecidableEq

def YieldResult.getYieldPerHectare : YieldResult → Option ℚ
  | .error _ => none
  | .ok p => some p.predicted_yield_per_hectare

def YieldResult.getTotalProduction : YieldResult → Option ℚ
  | .error _ => none
  | .ok p => some p.total_production

def YieldResult.getAreaHectares : YieldResult → Option ℚ
  | .error _ => none
  | .ok p => some p.area_hectares

/-- `YieldPredictionModel.predict_yield`.  `variability` stands for the
`random.uniform(0.9, 1.1)` draw of the source. -/
def predict_yield (crop : String) (soil_quality rainfall temperature humidity
    nitrogen phosphorus potassium area_hectares variability : ℚ) :
    YieldResult :=
  match base_yields crop with
  | none => .error ("Crop " ++ crop ++ " not supported")
  | some base_yield =>
    let soil_factor := calculate_soil_factor soil_quality
    let weather_factor := calculate_weather_factor crop rainfall temperature
      humidity
    let fertilizer_factor := calculate_fertilizer_factor nitrogen phosphorus
      potassium
    let yield_per_hectare :=
      base_yield * soil_factor * weather_factor * fertilizer_factor *
        variability
    let total_production := yield_per_hectare * area_hectares
    .ok
      { crop := crop
        predicted_yield_per_hectare := roundTo 2 yield_per_hectare
        total_production := roundTo 2 total_production
        area_hectares := area_hectares
        soil_factor := roundTo 3 soil_factor
        weather_factor := roundTo 3 weather_factor
        fertilizer_factor := roundTo 3 fertilizer_factor
        risk_assessment := assess_risks crop rainfall temperature soil_quality
        confidence_level := calculate_confidence soil_factor weather_factor
          fertilizer_factor }

/-! ## Theorems -/

theorem roundHalfEven_le (x : ℚ) : (roundHalfEven x : ℚ) ≤ x + 1/2 := by
  have hf : ((⌊x⌋ : ℤ) : ℚ) ≤ x := Int.floor_le x
  have hf2 : x < (⌊x⌋ : ℚ) + 1 := Int.lt_floor_add_one x
  unfold roundHalfEven
  split_ifs <;> push_cast <;> linarith

theorem le_roundHalfEven (x : ℚ) : x - 1/2 ≤ (roundHalfEven x : ℚ) := by
  have hf : ((⌊x⌋ : ℤ) : ℚ) ≤ x := Int.floor_le x
  have hf2 : x < (⌊x⌋ : ℚ) + 1 := Int.lt_floor_add_one x
  unfold roundHalfEven
  split_ifs <;> push_cast <;> linarith

theorem roundHalfEven_mono {x y : ℚ} (h : x ≤ y) :
    roundHalfEven x ≤ roundHalfEven y := by
  by_contra hc
  push_neg at hc
  have h1 : (roundHalfEven y : ℚ) + 1 ≤ (roundHalfEven x : ℚ) := by
    exact_mod_cast Int.add_one_le_iff.mpr hc
  have h2 := roundHalfEven_le x
  have h3 := le_roundHalfEven y
  have hyx : y ≤ x := by linarith
  have hxy : x = y := le_antisymm h hyx
  rw [hxy] at hc
  exact lt_irrefl _ hc

theorem roundTo_mono (d : ℕ) {x y : ℚ} (h : x ≤ y) : roundTo d x ≤ roundTo d y := by
  have h10 : (0:ℚ) < 10 ^ d := by positivity
  unfold roundTo
  have hm : roundHalfEven (x * 10 ^ d) ≤ roundHalfEven (y * 10 ^ d) :=
    roundHalfEven_mono (mul_le_mul_of_nonneg_right h (le_of_lt h10))
  exact div_le_div_of_nonneg_right (by exact_mod_cast hm) h10.le

theorem roundHalfEven_intCast (n : ℤ) : roundHalfEven (n : ℚ) = n := by
  unfold roundHalfEven
  rw [Int.floor_intCast]
  norm_num

theorem roundTo_intCast (d : ℕ) (n : ℤ) : roundTo d (n : ℚ) = n := by
  have h10 : (0:ℚ) < 10 ^ d := by positivity
  unfold roundTo
  have h : ((n:ℚ) * 10 ^ d) = ((n * 10 ^ d : ℤ) : ℚ) := by push_cast; ring
  rw [h, roundHalfEven_intCast]
  push_cast
  field_simp

theorem roundTo_zero (d : ℕ) : roundTo d 0 = 0 := by
  have := roundTo_intCast d 0
  simpa using this

theorem roundTo_nonneg (d : ℕ) {x : ℚ} (h : 0 ≤ x) : 0 ≤ roundTo d x := by
  have := roundTo_mono d h
  rwa [roundTo_zero] at this

/-- Evaluation rule for `roundHalfEven` below the tie. -/
theorem roundHalfEven_eval_lt {x : ℚ} {n : ℤ} (h0 : (n:ℚ) ≤ x)
    (h1 : x - n < 1/2) : roundHalfEven x = n := by
  have hfl : ⌊x⌋ = n := Int.floor_eq_iff.mpr ⟨h0, by linarith⟩
  unfold roundHalfEven
  rw [hfl, if_pos h1]

/-- Evaluation rule for `roundHalfEven` above the tie. -/
theorem roundHalfEven_eval_gt {x : ℚ} {n : ℤ} (h0 : 1/2 < x - n)
    (h1 : x < n + 1) : roundHalfEven x = n + 1 := by
  have hfl : ⌊x⌋ = n := Int.floor_eq_iff.mpr ⟨by linarith, by linarith⟩
  unfold roundHalfEven
  rw [hfl, if_neg (by linarith), if_pos h0]

/-- Evaluation rule for `roundHalfEven` at a tie with even floor. -/
theorem roundHalfEven_eval_tie_even {x : ℚ} {n : ℤ} (h0 : x - n = 1/2)
    (he : n % 2 = 0) : roundHalfEven x = n := by
  have hfl : ⌊x⌋ = n := Int.floor_eq_iff.mpr ⟨by linarith, by linarith⟩
  unfold roundHalfEven
  rw [hfl, if_neg (by linarith), if_neg (by linarith), if_pos he]

/-- The pH sub-score is clamped into `[0, 10]` for every pH value. -/
theorem ph_score_bounds (ph : ℚ) :
    0 ≤ max 0 (10 * (1 - |soil_optimal_ph - ph| / 3.5)) ∧
    max 0 (10 * (1 - |soil_optimal_ph - ph| / 3.5)) ≤ 10 := by
  constructor
  · exact le_max_left 0 _
  · have h : (0:ℚ) ≤ |soil_optimal_ph - ph| / 3.5 := by positivity
    have : 10 * (1 - |soil_optimal_ph - ph| / 3.5) ≤ 10 := by linarith
    exact max_le (by norm_num) this

/-- A `min(value / optimal * 10, 10)` nutrient sub-score lies in `[0, 10]`
for a non-negative concentration and positive optimum. -/
theorem nutrient_score_bounds {v opt : ℚ} (hv : 0 ≤ v) (hopt : 0 < opt) :
    0 ≤ min (v / opt * 10) 10 ∧ min (v / opt * 10) 10 ≤ 10 := by
  constructor
  · exact le_min (by positivity) (by norm_num)
  · exact min_le_right _ _

/-- The weighted overall score lies in `[0, 10]` when all five sub-scores do. -/
theorem weighted_sum_bounds {a b c d e : ℚ}
    (ha : 0 ≤ a) (ha' : a ≤ 10) (hb : 0 ≤ b) (hb' : b ≤ 10)
    (hc : 0 ≤ c) (hc' : c ≤ 10) (hd : 0 ≤ d) (hd' : d ≤ 10)
    (he : 0 ≤ e) (he' : e ≤ 10) :
    0 ≤ a * soil_weight_ph + b * soil_weight_nitrogen +
        c * soil_weight_phosphorus + d * soil_weight_potassium +
        e * soil_weight_organic_matter ∧
    a * soil_weight_ph + b * soil_weight_nitrogen +
        c * soil_weight_phosphorus + d * soil_weight_potassium +
        e * soil_weight_organic_matter ≤ 10 := by
  unfold soil_weight_ph soil_weight_nitrogen soil_weight_phosphorus
    soil_weight_potassium soil_weight_organic_matter
  constructor <;> nlinarith

/-- C2: the five fixed parameter weights sum to exactly 1, and for every
valid soil sample (pH within 3–10, all concentrations non-negative) the
overall score returned by `calculate_soil_quality_score` lies in `[0, 10]`. -/
theorem C2_soil_weights_sum_and_score_bounds :
    soil_weight_ph + soil_weight_nitrogen + soil_weight_phosphorus +
      soil_weight_potassium + soil_weight_organic_matter = 1 ∧
    ∀ ph nitrogen phosphorus potassium organic_matter : ℚ,
      3 ≤ ph → ph ≤ 10 →
      0 ≤ nitrogen → 0 ≤ phosphorus → 0 ≤ potassium → 0 ≤ organic_matter →
      0 ≤ (calculate_soil_quality_score ph nitrogen phosphorus potassium
            organic_matter).overall_score ∧
      (calculate_soil_quality_score ph nitrogen phosphorus potassium
            organic_matter).overall_score ≤ 10 := by
  constructor
  · norm_num [soil_weight_ph, soil_weight_nitrogen, soil_weight_phosphorus,
      soil_weight_potassium, soil_weight_organic_matter]
  · intro ph nitrogen phosphorus potassium organic_matter _ _ hn hp hk hom
    have hph := ph_score_bounds ph
    have hn' := nutrient_score_bounds hn
      (show (0:ℚ) < soil_optimal_nitrogen by norm_num [soil_optimal_nitrogen])
    have hp' := nutrient_score_bounds hp
      (show (0:ℚ) < soil_optimal_phosphorus by
        norm_num [soil_optimal_phosphorus])
    have hk' := nutrient_score_bounds hk
      (show (0:ℚ) < soil_optimal_potassium by norm_num [soil_optimal_potassium])
    have hom' := nutrient_score_bounds hom
      (show (0:ℚ) < soil_optimal_organic_matter by
        norm_num [soil_optimal_organic_matter])
    have hsum := weighted_sum_bounds hph.1 hph.2 hn'.1 hn'.2 hp'.1 hp'.2
      hk'.1 hk'.2 hom'.1 hom'.2
    unfold calculate_soil_quality_score
    refine ⟨roundTo_nonneg 2 hsum.1, ?_⟩
    have h10 : roundTo 2 (10:ℚ) = 10 := by
      have := roundTo_intCast 2 10
      simpa using this
    calc roundTo 2 _ ≤ roundTo 2 10 := roundTo_mono 2 hsum.2
      _ = 10 := h10

/-- C2 witness: the valid sample `(ph=6.5, n=50, p=40, k=300, om=5)` is
accepted and its overall score is within bounds. -/
theorem C2_soil_weights_sum_and_score_bounds_witness :
    0 ≤ (calculate_soil_quality_score 6.5 50 40 300 5).overall_score ∧
    (calculate_soil_quality_score 6.5 50 40 300 5).overall_score ≤ 10 :=
  C2_soil_weights_sum_and_score_bounds.2 6.5 50 40 300 5
    (by norm_num) (by norm_num) (by norm_num) (by norm_num)
    (by norm_num) (by norm_num)

theorem roundTo_le_ten (d : ℕ) {x : ℚ} (h : x ≤ 10) : roundTo d x ≤ 10 := by
  have h2 := roundTo_mono d h
  have h3 : roundTo d (10:ℚ) = 10 := by
    have := roundTo_intCast d 10
    simpa using this
  rwa [h3] at h2

/-- C9 counterexample: a negative nitrogen concentration is NOT clamped to
`[0, 10]` — the source only caps nutrient sub-scores from above with `min`,
so nitrogen = −50 mg/kg produces the sub-score −10. -/
theorem C9_negative_input_counterexample :
    (calculate_soil_quality_score 6.5 (-50) 40 300 5).nitrogen_score = -10 ∧
    ((-10 : ℚ) < 0) := by
  constructor
  · show roundTo 2 (min ((-50) / soil_optimal_nitrogen * 10) 10) = -10
    rw [show min ((-50:ℚ) / soil_optimal_nitrogen * 10) 10 = ((-10:ℤ):ℚ) by
        norm_num [soil_optimal_nitrogen], roundTo_intCast]
    norm_num
  · norm_num

/-- C9 amended: `calculate_soil_quality_score` is total and clamps only
partially: the pH sub-score is clamped into `[0, 10]` for EVERY pH value
(including values far outside the sane range), and for non-negative
concentrations every sub-score and the overall score lie in `[0, 10]`; but
negative concentrations escape below 0 because the nutrient sub-scores are
only capped from above. -/
theorem C9_clamped_scores_amended (ph nitrogen phosphorus potassium
    organic_matter : ℚ) (hn : 0 ≤ nitrogen) (hp : 0 ≤ phosphorus)
    (hk : 0 ≤ potassium) (hom : 0 ≤ organic_matter) :
    (let r := calculate_soil_quality_score ph nitrogen phosphorus potassium
      organic_matter
     (0 ≤ r.ph_score ∧ r.ph_score ≤ 10) ∧
     (0 ≤ r.nitrogen_score ∧ r.nitrogen_score ≤ 10) ∧
     (0 ≤ r.phosphorus_score ∧ r.phosphorus_score ≤ 10) ∧
     (0 ≤ r.potassium_score ∧ r.potassium_score ≤ 10) ∧
     (0 ≤ r.organic_matter_score ∧ r.organic_matter_score ≤ 10) ∧
     (0 ≤ r.overall_score ∧ r.overall_score ≤ 10)) := by
  intro r
  have hph := ph_score_bounds ph
  have hn' := nutrient_score_bounds hn
    (show (0:ℚ) < soil_optimal_nitrogen by norm_num [soil_optimal_nitrogen])
  have hp' := nutrient_score_bounds hp
    (show (0:ℚ) < soil_optimal_phosphorus by
      norm_num [soil_optimal_phosphorus])
  have hk' := nutrient_score_bounds hk
    (show (0:ℚ) < soil_optimal_potassium by norm_num [soil_optimal_potassium])
  have hom' := nutrient_score_bounds hom
    (show (0:ℚ) < soil_optimal_organic_matter by
      norm_num [soil_optimal_organic_matter])
  have hsum := weighted_sum_bounds hph.1 hph.2 hn'.1 hn'.2 hp'.1 hp'.2
    hk'.1 hk'.2 hom'.1 hom'.2
  exact ⟨⟨roundTo_nonneg 2 hph.1, roundTo_le_ten 2 hph.2⟩,
    ⟨roundTo_nonneg 2 hn'.1, roundTo_le_ten 2 hn'.2⟩,
    ⟨roundTo_nonneg 2 hp'.1, roundTo_le_ten 2 hp'.2⟩,
    ⟨roundTo_nonneg 2 hk'.1, roundTo_le_ten 2 hk'.2⟩,
    ⟨roundTo_nonneg 2 hom'.1, roundTo_le_ten 2 hom'.2⟩,
    ⟨roundTo_nonneg 2 hsum.1, roundTo_le_ten 2 hsum.2⟩⟩

/-- C9 witness: the amended bounds at the out-of-sane-range input
`ph = 0` with zero concentrations (all still handled by clamping). -/
theorem C9_clamped_scores_amended_witness :
    0 ≤ (calculate_soil_quality_score 0 0 0 0 0).ph_score ∧
    (calculate_soil_quality_score 0 0 0 0 0).ph_score ≤ 10 ∧
    0 ≤ (calculate_soil_quality_score 0 0 0 0 0).overall_score ∧
    (calculate_soil_quality_score 0 0 0 0 0).overall_score ≤ 10 := by
  have h := C9_clamped_scores_amended 0 0 0 0 0 (by norm_num) (by norm_num)
    (by norm_num) (by norm_num)
  exact ⟨h.1.1, h.1.2, h.2.2.2.2.2.1, h.2.2.2.2.2.2⟩

/-- C3 counterexample: at `soil_moisture = 30` the source classifies the
moisture as Critical (the threshold comparison is `<= 30`), so the urgency
is "High", not "Medium" as the claim states. -/
theorem C3_boundary_counterexample :
    (assess_moisture_status 30).urgency = "High" ∧
    (assess_moisture_status 30).urgency ≠ "Medium" := by
  constructor
  · rw [assess_moisture_status, if_pos (by norm_num)]
  · rw [assess_moisture_status, if_pos (by norm_num)]
    decide

/-- C3 amended: urgency is a deterministic function of soil moisture against
the inclusive thresholds 30/50/70/90; `soil_moisture = 29` and
`soil_moisture = 30` both yield urgency "High" (the `<= 30` critical band),
and any moisture strictly between 30 and 50 yields "Medium". -/
theorem C3_moisture_urgency_thresholds :
    (assess_moisture_status 29).urgency = "High" ∧
    (assess_moisture_status 30).urgency = "High" ∧
    (∀ m : ℚ, 30 < m → m ≤ 50 → (assess_moisture_status m).urgency = "Medium") ∧
    (∀ m : ℚ, m ≤ 30 → (assess_moisture_status m).urgency = "High") := by
  refine ⟨?_, ?_, ?_, ?_⟩
  · rw [assess_moisture_status, if_pos (by norm_num)]
  · rw [assess_moisture_status, if_pos (by norm_num)]
  · intro m h1 h2
    rw [assess_moisture_status, if_neg (by linarith), if_pos h2]
  · intro m h
    rw [assess_moisture_status, if_pos h]

/-- C3 witness: the amended theorem at moisture 31. -/
theorem C3_moisture_urgency_thresholds_witness :
    (assess_moisture_status 31).urgency = "Medium" :=
  C3_moisture_urgency_thresholds.2.2.1 31 (by norm_num) (by norm_num)

theorem roundTo_one_le {x : ℚ} (c : ℤ) (h : (c:ℚ) ≤ x) : (c:ℚ) ≤ roundTo 1 x := by
  have := roundTo_mono 1 h
  rwa [roundTo_intCast 1 c] at this

theorem gen_rec_duration_high (wd : ℚ) (crop : String) :
    2 ≤ (generate_irrigation_recommendation "High" wd crop).duration_hours := by
  unfold generate_irrigation_recommendation
  rw [if_pos rfl]
  exact_mod_cast roundTo_one_le 2 (by exact_mod_cast le_max_left 2 (wd / 10))

theorem gen_rec_duration_medium (wd : ℚ) (crop : String) :
    1 ≤ (generate_irrigation_recommendation "Medium" wd crop).duration_hours := by
  unfold generate_irrigation_recommendation
  rw [if_neg (by decide), if_pos rfl]
  exact_mod_cast roundTo_one_le 1 (by exact_mod_cast le_max_left 1 (wd / 15))

theorem gen_rec_duration_low (wd : ℚ) (crop : String) :
    (generate_irrigation_recommendation "Low" wd crop).duration_hours = 0 := by
  unfold generate_irrigation_recommendation
  rw [if_neg (by decide), if_neg (by decide), if_pos rfl]
  exact roundTo_zero 1

theorem gen_rec_duration_none (wd : ℚ) (crop : String) :
    (generate_irrigation_recommendation "None" wd crop).duration_hours = 0 := by
  unfold generate_irrigation_recommendation
  rw [if_neg (by decide), if_neg (by decide), if_neg (by decide),
    if_neg (by decide)]
  exact roundTo_zero 1

theorem gen_rec_duration_drainage (wd : ℚ) (crop : String) :
    (generate_irrigation_recommendation "Drainage" wd crop).duration_hours
      = 0 := by
  unfold generate_irrigation_recommendation
  rw [if_neg (by decide), if_neg (by decide), if_neg (by decide), if_pos rfl]
  exact roundTo_zero 1

theorem gen_rec_water_nonneg (u : String) (wd : ℚ) (crop : String) :
    0 ≤ (generate_irrigation_recommendation u wd crop).water_amount_mm := by
  unfold generate_irrigation_recommendation
  apply roundTo_nonneg
  split_ifs with h
  · exact h.le
  · exact le_refl 0

/-- C10: in every assessment produced by `assess_irrigation_need`, the
recommended duration is exactly 0 for urgency "Low", "None" or "Drainage",
at least 2 hours for "High", at least 1 hour for "Medium", and the
recommended water amount is never negative. -/
theorem C10_duration_and_water_bounds (crop : String) (soil_moisture
    temperature humidity wind_speed : ℚ) (growth_stage soil_type : String)
    (days_since_rain : ℤ) :
    (let r := assess_irrigation_need crop soil_moisture temperature humidity
      wind_speed growth_stage soil_type days_since_rain
     let u := r.moisture_status.urgency
     ((u = "Low" ∨ u = "None" ∨ u = "Drainage") →
       r.recommendation.duration_hours = 0) ∧
     (u = "High" → 2 ≤ r.recommendation.duration_hours) ∧
     (u = "Medium" → 1 ≤ r.recommendation.duration_hours) ∧
     0 ≤ r.recommendation.water_amount_mm) := by
  intro r u
  refine ⟨?_, ?_, ?_, ?_⟩
  · intro hu
    show (generate_irrigation_recommendation u _ crop).duration_hours = 0
    rcases hu with h | h | h <;> rw [h]
    · exact gen_rec_duration_low _ crop
    · exact gen_rec_duration_none _ crop
    · exact gen_rec_duration_drainage _ crop
  · intro hu
    show 2 ≤ (generate_irrigation_recommendation u _ crop).duration_hours
    rw [hu]
    exact gen_rec_duration_high _ crop
  · intro hu
    show 1 ≤ (generate_irrigation_recommendation u _ crop).duration_hours
    rw [hu]
    exact gen_rec_duration_medium _ crop
  · exact gen_rec_water_nonneg u _ crop

/-- C10 witness: a concrete call with critically dry soil (urgency "High")
gets a duration of at least 2 hours and non-negative water amount. -/
theorem C10_duration_and_water_bounds_witness :
    2 ≤ (assess_irrigation_need "wheat" 20 28 60 8 "flowering" "loamy"
      4).recommendation.duration_hours ∧
    0 ≤ (assess_irrigation_need "wheat" 20 28 60 8 "flowering" "loamy"
      4).recommendation.water_amount_mm := by
  have h := C10_duration_and_water_bounds "wheat" 20 28 60 8 "flowering"
    "loamy" 4
  refine ⟨h.2.1 ?_, h.2.2.2⟩
  show (assess_moisture_status 20).urgency = "High"
  rw [assess_moisture_status, if_pos (by norm_num)]

/-- C8 counterexample: the Price Forecaster's `calculate_profitability` does
NOT fall back for an unknown crop — `current_prices[crop]` raises `KeyError`
(modelled: `none`), while the Irrigation Assessor's evapotranspiration lookup
does fall back (here to the default base 5.0 mm/day: with the "vegetative"
stage multiplier 0.7 and neutral weather it completes normally with 3.5). -/
theorem C8_profitability_no_fallback_counterexample :
    current_prices "quinoa" = none ∧
    calculate_profitability "quinoa" 1 none = none ∧
    calculate_evapotranspiration "quinoa" 25 50 5 "vegetative" = 3.5 := by
  refine ⟨rfl, ?_, ?_⟩
  · have h : current_prices "quinoa" = none := rfl
    unfold calculate_profitability
    rw [h]
    rfl
  · have h1 : crop_water_requirements "quinoa" = none := rfl
    have h2 : growth_stage_multipliers "vegetative" = some 0.7 := rfl
    rw [calculate_evapotranspiration, h1, h2]
    simp only [Option.getD_none, Option.getD_some]
    norm_num

/-- C8 amended: unknown keys fall back to the documented defaults in the
Irrigation Assessor (unknown crops all use the same default
evapotranspiration base, and the result always completes normally, floored
at 1 mm/day) — but NOT in the Price Forecaster's `calculate_profitability`,
which fails (`KeyError`, modelled as `none`) for a crop absent from its
price table instead of falling back. -/
theorem C8_lookup_fallback_amended :
    (∀ (crop : String) (area : ℚ) (m : Option ℤ),
      current_prices crop = none →
      calculate_profitability crop area m = none) ∧
    (∀ (c₁ c₂ : String) (t h w : ℚ) (s : String),
      crop_water_requirements c₁ = none → crop_water_requirements c₂ = none →
      calculate_evapotranspiration c₁ t h w s =
        calculate_evapotranspiration c₂ t h w s) ∧
    (∀ (crop : String) (t h w : ℚ) (s : String),
      1 ≤ calculate_evapotranspiration crop t h w s) := by
  refine ⟨?_, ?_, ?_⟩
  · intro crop area m h
    unfold calculate_profitability
    rw [h]
    rfl
  · intro c₁ c₂ t h w s h1 h2
    unfold calculate_evapotranspiration
    rw [h1, h2]
  · intro crop t h w s
    unfold calculate_evapotranspiration
    refine le_trans (by norm_num) (le_max_left 1.0 _)

/-- C8 amended witness: the unknown crop "quinoa" on each component. -/
theorem C8_lookup_fallback_amended_witness :
    calculate_profitability "quinoa" 2 (some 3) = none ∧
    calculate_evapotranspiration "quinoa" 30 40 10 "flowering" =
      calculate_evapotranspiration "dragonfruit" 30 40 10 "flowering" ∧
    1 ≤ calculate_evapotranspiration "quinoa" 30 40 10 "flowering" :=
  ⟨C8_lookup_fallback_amended.1 "quinoa" 2 (some 3) rfl,
   C8_lookup_fallback_amended.2.1 "quinoa" "dragonfruit" 30 40 10 "flowering"
     rfl rfl,
   C8_lookup_fallback_amended.2.2 "quinoa" 30 40 10 "flowering"⟩

theorem getD_rat_nonneg {l : List ℚ} {d : ℚ} (hd : 0 ≤ d)
    (hl : ∀ x ∈ l, 0 ≤ x) (i : ℕ) : 0 ≤ l.getD i d := by
  by_cases h : i < l.length
  · rw [List.getD_eq_getElem l d h]
    exact hl _ (List.getElem_mem h)
  · rw [List.getD_eq_default l d (le_of_not_lt h)]
    exact hd

theorem seasonal_multiplier_nonneg (crop : String) (i : ℕ) :
    0 ≤ seasonal_multiplier crop i := by
  unfold seasonal_multiplier seasonal_patterns
  split_ifs <;> simp only [Option.getD_some, Option.getD_none] <;>
    refine getD_rat_nonneg (by norm_num) ?_ i <;> intro x hx
  · fin_cases hx <;> norm_num
  · fin_cases hx <;> norm_num
  · fin_cases hx <;> norm_num
  · fin_cases hx <;> norm_num
  · simp only [default_seasonal, List.mem_replicate] at hx
    rw [hx.2]
    norm_num

theorem volatility_getD_nonneg (c : String) :
    0 ≤ (volatility_table c).getD 0.10 := by
  unfold volatility_table
  split_ifs <;> simp only [Option.getD_some, Option.getD_none] <;> norm_num

theorem calculate_price_trend_nonneg (crop : String) {mf : ℚ}
    (h : -0.03 ≤ mf) : 0 ≤ calculate_price_trend crop mf := by
  unfold calculate_price_trend price_trends
  split_ifs <;> simp only [Option.getD_some, Option.getD_none] <;> linarith

theorem current_prices_nonneg {crop : String} {q : ℚ}
    (h : current_prices crop = some q) : 0 ≤ q := by
  unfold current_prices at h
  rcases Option.map_eq_some'.mp h with ⟨kv, hfind, hq⟩
  have hmem := List.mem_of_find?_eq_some hfind
  rw [← hq]
  fin_cases hmem <;> norm_num

theorem conf_at_ge_half (m : ℕ) : 1/2 ≤ conf_at m :=
  le_trans (by norm_num) (le_max_left 0.5 _)

theorem conf_at_antitone {m m₂ : ℕ} (h : m ≤ m₂) : conf_at m₂ ≤ conf_at m := by
  unfold conf_at
  apply max_le (le_max_left _ _)
  refine le_trans ?_ (le_max_right _ _)
  have hc : (m:ℚ) ≤ (m₂:ℚ) := by exact_mod_cast h
  linarith

theorem generate_future_aux_mem (crop : String) (calMonth : ℕ → ℕ)
    (trend vol : ℚ) (htrend : 0 ≤ trend) (hvol : 0 ≤ vol) :
    ∀ (k month : ℕ) (price : ℚ), 0 ≤ price →
      ∀ e ∈ generate_future_aux crop calMonth trend vol k month price,
        e.min_price ≤ e.predicted_price ∧
        e.predicted_price ≤ e.max_price ∧
        e.confidence = conf_at e.month ∧
        month ≤ e.month := by
  intro k
  induction k with
  | zero =>
    intro month price _ e he
    simp [generate_future_aux] at he
  | succ n ih =>
    intro month price hp e he
    simp only [generate_future_aux] at he
    have hprice2 : 0 ≤ price * (1 + trend / 12) :=
      mul_nonneg hp (by linarith)
    rcases List.mem_cons.mp he with he1 | htail
    · subst he1
      have hsp : 0 ≤ price * (1 + trend / 12) *
          seasonal_multiplier crop (calMonth month) :=
        mul_nonneg hprice2 (seasonal_multiplier_nonneg crop (calMonth month))
      have hu : 0 ≤ vol * (month : ℚ) * 0.1 := by positivity
      refine ⟨?_, ?_, rfl, le_refl month⟩
      · exact roundTo_mono 2 (by nlinarith)
      · exact roundTo_mono 2 (by nlinarith)
    · have h := ih (month + 1) _ hprice2 e htail
      exact ⟨h.1, h.2.1, h.2.2.1, le_trans (Nat.le_succ month) h.2.2.2⟩

theorem generate_future_aux_pairwise (crop : String) (calMonth : ℕ → ℕ)
    (trend vol : ℚ) (htrend : 0 ≤ trend) (hvol : 0 ≤ vol) :
    ∀ (k month : ℕ) (price : ℚ), 0 ≤ price →
      List.Pairwise (fun a b => b.confidence ≤ a.confidence)
        (generate_future_aux crop calMonth trend vol k month price) := by
  intro k
  induction k with
  | zero =>
    intro month price _
    simp [generate_future_aux]
  | succ n ih =>
    intro month price hp
    have hprice2 : 0 ≤ price * (1 + trend / 12) :=
      mul_nonneg hp (by linarith)
    simp only [generate_future_aux]
    refine List.Pairwise.cons ?_ (ih (month + 1) _ hprice2)
    intro b hb
    have h := generate_future_aux_mem crop calMonth trend vol htrend hvol n
      (month + 1) _ hprice2 b hb
    show b.confidence ≤ conf_at month
    rw [h.2.2.1]
    exact conf_at_antitone (le_trans (Nat.le_succ month) h.2.2.2)

/-- C5: for every crop in the price table, every horizon of at least one
month and every admissible random market factor, each future prediction
satisfies `min_price ≤ predicted_price ≤ max_price`, and the confidence
values are at least the floor 0.5 and non-increasing along the list. -/
theorem C5_price_prediction_bounds (crop : String) (p : ℚ)
    (months_ahead : ℕ) (market_factor : ℚ) (calMonth : ℕ → ℕ)
    (hp : current_prices crop = some p)
    (hmf : -0.03 ≤ market_factor) (_hmf2 : market_factor ≤ 0.03)
    (_hm : 1 ≤ months_ahead) :
    (∀ e ∈ generate_future_predictions crop p months_ahead
        (calculate_price_trend crop market_factor) calMonth,
      e.min_price ≤ e.predicted_price ∧ e.predicted_price ≤ e.max_price ∧
      1/2 ≤ e.confidence) ∧
    List.Pairwise (fun a b => b.confidence ≤ a.confidence)
      (generate_future_predictions crop p months_ahead
        (calculate_price_trend crop market_factor) calMonth) := by
  have hpn := current_prices_nonneg hp
  have ht := calculate_price_trend_nonneg crop hmf
  have hv := volatility_getD_nonneg (get_crop_category crop)
  constructor
  · intro e he
    have h := generate_future_aux_mem crop calMonth _ _ ht hv months_ahead 1
      p hpn e he
    refine ⟨h.1, h.2.1, ?_⟩
    rw [h.2.2.1]
    exact conf_at_ge_half e.month
  · exact generate_future_aux_pairwise crop calMonth _ _ ht hv months_ahead 1
      p hpn

/-- C5 witness: wheat over a three-month horizon with a neutral market
factor and January-pinned calendar months. -/
theorem C5_price_prediction_bounds_witness :
    (∀ e ∈ generate_future_predictions "wheat" 2200 3
        (calculate_price_trend "wheat" 0) (fun _ => 0),
      e.min_price ≤ e.predicted_price ∧ e.predicted_price ≤ e.max_price ∧
      1/2 ≤ e.confidence) ∧
    List.Pairwise (fun a b => b.confidence ≤ a.confidence)
      (generate_future_predictions "wheat" 2200 3
        (calculate_price_trend "wheat" 0) (fun _ => 0)) :=
  C5_price_prediction_bounds "wheat" 2200 3 0 (fun _ => 0) rfl
    (by norm_num) (by norm_num) (by norm_num)

theorem mem_insert_desc {x y : RotationSuggestion}
    {l : List RotationSuggestion} (h : y ∈ insert_desc x l) :
    y = x ∨ y ∈ l := by
  induction l with
  | nil =>
    rw [insert_desc] at h
    exact Or.inl (by simpa using h)
  | cons z zs ih =>
    rw [insert_desc] at h
    split_ifs at h
    · rcases List.mem_cons.mp h with h1 | h2
      · exact Or.inl h1
      · exact Or.inr h2
    · rcases List.mem_cons.mp h with h1 | h2
      · exact Or.inr (h1 ▸ List.mem_cons_self z zs)
      · rcases ih h2 with h3 | h4
        · exact Or.inl h3
        · exact Or.inr (List.mem_cons_of_mem z h4)

theorem mem_sort_desc {y : RotationSuggestion} {l : List RotationSuggestion}
    (h : y ∈ sort_desc l) : y ∈ l := by
  induction l with
  | nil => simp [sort_desc] at h
  | cons z zs ih =>
    rw [sort_desc] at h
    rcases mem_insert_desc h with h1 | h2
    · exact h1 ▸ List.mem_cons_self z zs
    · exact List.mem_cons_of_mem z (ih h2)

/-- C6: every recommendation returned by `suggest_crop_rotation` is for a
crop of the reference table whose season equals the requested season or is
"all" — a candidate matching neither never appears. -/
theorem C6_season_filter (current_crop : String) (soil_quality : ℚ)
    (season : String) (area_hectares : ℚ) :
    ∀ s ∈ (suggest_crop_rotation current_crop soil_quality season
        area_hectares).recommendations,
      ∃ d : CropData, (s.crop, d) ∈ crop_database ∧
        (d.season = season ∨ d.season = "all") := by
  intro s hs
  have hs2 : s ∈ sort_desc (suitable_crops
      (current_category_of current_crop)
      (beneficial_categories (current_category_of current_crop))
      soil_quality season) := List.take_subset 5 _ hs
  have hs3 := mem_sort_desc hs2
  rcases List.mem_map.mp hs3 with ⟨kv, hkv, hmap⟩
  have hfil := List.mem_filter.mp hkv
  have hcond := of_decide_eq_true hfil.2
  have hcrop : s.crop = kv.1 := by rw [← hmap]
  refine ⟨kv.2, ?_, ?_⟩
  · rw [hcrop]
    exact hfil.1
  · have hseason := hcond.1
    unfold seasons_map at hseason
    split_ifs at hseason with h1 h2 h3
    · rcases (by simpa using hseason : kv.2.season = "winter" ∨
          kv.2.season = "all") with h | h
      · exact Or.inl (h.trans h1.symm)
      · exact Or.inr h
    · rcases (by simpa using hseason : kv.2.season = "monsoon" ∨
          kv.2.season = "all") with h | h
      · exact Or.inl (h.trans h2.symm)
      · exact Or.inr h
    · rcases (by simpa using hseason : kv.2.season = "summer" ∨
          kv.2.season = "all") with h | h
      · exact Or.inl (h.trans h3.symm)
      · exact Or.inr h
    · exact Or.inl (by simpa using hseason)

/-- C6 witness: after wheat at soil quality 7 in the monsoon season, the
top recommendation is groundnut (a monsoon legume), and the theorem yields
its database entry with a matching season. -/
theorem C6_season_filter_witness :
    ∃ d : CropData, ("groundnut", d) ∈ crop_database ∧
      (d.season = "monsoon" ∨ d.season = "all") :=
  C6_season_filter "wheat" 7 "monsoon" 2
    { crop := "groundnut"
      category := "legumes"
      suitability_score := 13
      rotation_benefit :=
        "Legumes fix nitrogen, reducing fertilizer needs for next cereal crop"
      soil_requirement := 5
      water_need := "medium"
      nitrogen_need := "low" }
    (by norm_num +decide [suggest_crop_rotation, suitable_crops,
      crop_database, seasons_map, current_category_of, beneficial_categories,
      sort_desc, insert_desc, get_rotation_benefit, rotation_benefits,
      List.find?, min_def])

/-- C1: for a crop absent from the base-yield table `predict_yield` returns
the explicit error record (it is a total function, so it never raises); for
every crop present in the table it returns a normal prediction record. -/
theorem C1_unsupported_crop_error (crop : String) (soil_quality rainfall
    temperature humidity nitrogen phosphorus potassium area_hectares
    variability : ℚ) :
    (base_yields crop = none →
      predict_yield crop soil_quality rainfall temperature humidity nitrogen
        phosphorus potassium area_hectares variability =
      .error ("Crop " ++ crop ++ " not supported")) ∧
    (∀ b, base_yields crop = some b →
      ∃ p, predict_yield crop soil_quality rainfall temperature humidity
        nitrogen phosphorus potassium area_hectares variability = .ok p) := by
  constructor
  · intro h
    unfold predict_yield
    rw [h]
  · intro b h
    unfold predict_yield
    rw [h]
    exact ⟨_, rfl⟩

/-- C1 witness: "quinoa" is unsupported and yields the error record; "wheat"
is supported and yields a normal record. -/
theorem C1_unsupported_crop_error_witness :
    predict_yield "quinoa" 5 500 25 60 100 50 70 1 1 =
      .error "Crop quinoa not supported" ∧
    ∃ p, predict_yield "wheat" 5 500 25 60 100 50 70 1 1 = .ok p := by
  constructor
  · exact (C1_unsupported_crop_error "quinoa" 5 500 25 60 100 50 70 1 1).1
      (by rfl)
  · exact (C1_unsupported_crop_error "wheat" 5 500 25 60 100 50 70 1 1).2
      4.5 (by rfl)

/-- C4: the soil factor equals the piecewise-linear table of the source, and
it is continuous at the breakpoint 6.0: the value there is 0.8 and the
lower segment's formula also evaluates to 0.8 at 6.0. -/
theorem C4_soil_factor_piecewise :
    calculate_soil_factor 6 = 0.8 ∧
    (0.6 + ((6:ℚ) - 4.0) * 0.1) = 0.8 ∧
    (∀ sq : ℚ, 8 ≤ sq → calculate_soil_factor sq = 1.0) ∧
    (∀ sq : ℚ, 6 ≤ sq → sq < 8 →
      calculate_soil_factor sq = 0.8 + (sq - 6.0) * 0.1) ∧
    (∀ sq : ℚ, 4 ≤ sq → sq < 6 →
      calculate_soil_factor sq = 0.6 + (sq - 4.0) * 0.1) ∧
    (∀ sq : ℚ, sq < 4 → calculate_soil_factor sq = 0.4 + sq * 0.05) := by
  refine ⟨?_, by norm_num, ?_, ?_, ?_, ?_⟩
  · rw [calculate_soil_factor, if_neg (by norm_num), if_pos (by norm_num)]
    norm_num
  · intro sq h
    rw [calculate_soil_factor, if_pos h]
  · intro sq h1 h2
    rw [calculate_soil_factor, if_neg (by linarith), if_pos h1]
  · intro sq h1 h2
    rw [calculate_soil_factor, if_neg (by linarith), if_neg (by linarith),
      if_pos h1]
  · intro sq h
    rw [calculate_soil_factor, if_neg (by linarith), if_neg (by linarith),
      if_neg (by linarith)]

/-- C4 witness: the spec's probes `soil_quality = 5.999` and `6.0`. -/
theorem C4_soil_factor_piecewise_witness :
    calculate_soil_factor 5.999 = 0.6 + ((5.999:ℚ) - 4.0) * 0.1 ∧
    calculate_soil_factor 6 = 0.8 :=
  ⟨C4_soil_factor_piecewise.2.2.2.2.1 5.999 (by norm_num) (by norm_num),
   C4_soil_factor_piecewise.1⟩

/-- C7 counterexample: for wheat at soil quality 6.1 (otherwise optimal
inputs, jitter 1.02) on 10 hectares the unrounded yield is 3.7179 t/ha, so
the returned fields are `predicted_yield_per_hectare = 3.72` and
`total_production = 37.18`, and `37.18 ≠ 3.72 × 10`: the returned product
identity fails because the source rounds the per-hectare yield and the
total independently. -/
theorem C7_total_production_counterexample :
    (predict_yield "wheat" 6.1 550 20 65 120 60 80 10 1.02).getYieldPerHectare
      = some 3.72 ∧
    (predict_yield "wheat" 6.1 550 20 65 120 60 80 10 1.02).getTotalProduction
      = some 37.18 ∧
    (predict_yield "wheat" 6.1 550 20 65 120 60 80 10 1.02).getAreaHectares
      = some 10 ∧
    (37.18 : ℚ) ≠ 3.72 * 10 := by
  have hb : base_yields "wheat" = some 4.5 := by rfl
  have hsf : calculate_soil_factor 6.1 = 0.81 := by
    rw [calculate_soil_factor, if_neg (by norm_num), if_pos (by norm_num)]
    norm_num
  have hreq : crop_requirements "wheat" = some ⟨15, 25, 300, 800⟩ := by rfl
  have hwf : calculate_weather_factor "wheat" 550 20 65 = 1 := by
    rw [calculate_weather_factor, hreq]
    show (if (15:ℚ) ≤ 20 ∧ (20:ℚ) ≤ 25 then (1.0:ℚ) else _) *
      (if (300:ℚ) ≤ 550 ∧ (550:ℚ) ≤ 800 then (1.0:ℚ) else _) *
      (if (60:ℚ) ≤ 65 ∧ (65:ℚ) ≤ 70 then (1.0:ℚ) else _) = 1
    rw [if_pos (by norm_num), if_pos (by norm_num), if_pos (by norm_num)]
    norm_num
  have hff : calculate_fertilizer_factor 120 60 80 = 1 := by
    rw [calculate_fertilizer_factor]
    show (if (120:ℚ) ≤ 120 then (0.7:ℚ) + 120 / 120 * 0.3 else _) * 0.6 +
      min 1.0 ((0.8:ℚ) + 60 / 60 * 0.2) * 0.25 +
      min 1.0 ((0.9:ℚ) + 80 / 80 * 0.1) * 0.15 = 1
    rw [if_pos (by norm_num)]
    norm_num
  have hy : (4.5:ℚ) * 0.81 * 1 * 1 * 1.02 = 3.7179 := by norm_num
  have hr1 : roundTo 2 (3.7179:ℚ) = 3.72 := by
    unfold roundTo
    rw [show (3.7179:ℚ) * 10 ^ 2 = 371.79 by norm_num,
      @roundHalfEven_eval_gt (371.79:ℚ) 371 (by norm_num) (by norm_num)]
    norm_num
  have hr2 : roundTo 2 (37.179:ℚ) = 37.18 := by
    unfold roundTo
    rw [show (37.179:ℚ) * 10 ^ 2 = 3717.9 by norm_num,
      @roundHalfEven_eval_gt (3717.9:ℚ) 3717 (by norm_num) (by norm_num)]
    norm_num
  refine ⟨?_, ?_, ?_, by norm_num⟩
  · unfold predict_yield
    rw [hb]
    simp only [YieldResult.getYieldPerHectare, hsf, hwf, hff]
    rw [hy, hr1]
  · unfold predict_yield
    rw [hb]
    simp only [YieldResult.getTotalProduction, hsf, hwf, hff]
    rw [hy, show (3.7179:ℚ) * 10 = 37.179 by norm_num, hr2]
  · unfold predict_yield
    rw [hb]
    simp only [YieldResult.getAreaHectares]

/-- C7 amended: `total_production` is `round(·, 2)` of the unrounded
per-hectare yield times the area, and `predicted_yield_per_hectare` is
`round(·, 2)` of the same unrounded yield — the exact product identity holds
before rounding, but the two returned fields are rounded independently, so
the returned `total_production` can differ from the returned
`predicted_yield_per_hectare × area_hectares`. -/
theorem C7_total_production_amended (crop : String) (b soil_quality rainfall
    temperature humidity nitrogen phosphorus potassium area_hectares
    variability : ℚ) (h : base_yields crop = some b) :
    (predict_yield crop soil_quality rainfall temperature humidity nitrogen
        phosphorus potassium area_hectares variability).getYieldPerHectare =
      some (roundTo 2 (b * calculate_soil_factor soil_quality *
        calculate_weather_factor crop rainfall temperature humidity *
        calculate_fertilizer_factor nitrogen phosphorus potassium *
        variability)) ∧
    (predict_yield crop soil_quality rainfall temperature humidity nitrogen
        phosphorus potassium area_hectares variability).getTotalProduction =
      some (roundTo 2 (b * calculate_soil_factor soil_quality *
        calculate_weather_factor crop rainfall temperature humidity *
        calculate_fertilizer_factor nitrogen phosphorus potassium *
        variability * area_hectares)) ∧
    (predict_yield crop soil_quality rainfall temperature humidity nitrogen
        phosphorus potassium area_hectares variability).getAreaHectares =
      some area_hectares := by
  unfold predict_yield
  rw [h]
  exact ⟨rfl, rfl, rfl⟩

/-- C7 amended witness: the amended relation at the counterexample input. -/
theorem C7_total_production_amended_witness :
    (predict_yield "wheat" 6.1 550 20 65 120 60 80 10
        1).getYieldPerHectare =
      some (roundTo 2 (4.5 * calculate_soil_factor 6.1 *
        calculate_weather_factor "wheat" 550 20 65 *
        calculate_fertilizer_factor 120 60 80 * 1)) ∧
    (predict_yield "wheat" 6.1 550 20 65 120 60 80 10
        1).getTotalProduction =
      some (roundTo 2 (4.5 * calculate_soil_factor 6.1 *
        calculate_weather_factor "wheat" 550 20 65 *
        calculate_fertilizer_factor 120 60 80 * 1 * 10)) ∧
    (predict_yield "wheat" 6.1 550 20 65 120 60 80 10
        1).getAreaHectares = some 10 :=
  C7_total_production_amended "wheat" 4.5 6.1 550 20 65 120 60 80 10 1
    (by rfl)

end SmartAgri
